import Mathlib

/-!
Verification development for the road-watcher repository
(src/detector.py, src/led_controller.py, src/camera.py).

The Python source is shallowly embedded:
  * floating-point timestamps, durations and areas become rationals (ℚ);
  * the mutable detector state (`last_detection_time`, `detection_log`)
    becomes an explicit `DetectorState` threaded through the functions;
  * side effects (LED alert, snapshot saving) become an explicit list of
    `Effect` values returned by the embedded functions;
  * exceptions become `Except String`;
  * the external OpenCV primitives that the repository merely calls
    (Gaussian blur, the MOG2 background model, morphology, contour
    extraction) are parameters of the embedding (`CV`), while the
    primitives whose documented behaviour the repository's logic relies
    on (`cv2.threshold` with `THRESH_BINARY`, `cv2.cvtColor` failure on
    malformed input, numpy slicing for the ROI crop) are embedded
    concretely.
-/

namespace RoadWatcher

/-- A contour as the detector uses it: only its pixel area
(`cv2.contourArea`) is ever inspected by the repository's code. -/
structure Contour where
  area : ℚ
deriving Repr, DecidableEq

/-- The typed view of the loaded configuration dictionary, restricted to
the keys that `detect_motion` and `handle_detection` read
(src/detector.py).  `roi` is `none` when the key is absent or null
(`config.get("roi")` returns `None` in both cases). -/
structure Config where
  min_contour_area : ℚ
  detection_cooldown : ℚ
  alert_duration : ℚ
  roi : Option (List Nat)
  save_detections : Bool
deriving Repr, DecidableEq

/-- One entry of `self.detection_log` (src/detector.py lines 137-141):
a timestamp and the number of contours of the accepted detection. -/
structure LogEntry where
  timestamp : ℚ
  contour_count : Nat
deriving Repr, DecidableEq

/-- The mutable state of `VehicleDetector` that `handle_detection`
touches: `self.last_detection_time` (initialised to `0` in `__init__`)
and the in-memory `self.detection_log`. -/
structure DetectorState where
  last_detection_time : ℚ
  detection_log : List LogEntry
deriving Repr, DecidableEq

/-- The externally visible side effects of `handle_detection`:
`self.led.alert(duration=...)` and `self._save_detection(...)`. -/
inductive Effect where
  | ledAlert (duration : ℚ)
  | saveDetection (timestamp : ℚ)
deriving Repr, DecidableEq

/-- Fresh state of `VehicleDetector.__init__` (src/detector.py lines
32-33): `self.last_detection_time = 0`, `self.detection_log = []`. -/
def freshState : DetectorState := ⟨0, []⟩

/-- Embedding of `VehicleDetector.handle_detection` (src/detector.py
lines 123-147).  `now` stands for `time.time()`; the same instant also
stands for the `datetime.now().isoformat()` timestamp recorded in the
log entry.  If the cooldown has not elapsed the method returns
immediately (no state change, no effect); otherwise it updates
`last_detection_time`, triggers the LED alert, appends a log entry and,
when `save_detections` is set, saves a snapshot. -/
def handle_detection (cfg : Config) (st : DetectorState) (now : ℚ)
    (contours : List Contour) : DetectorState × List Effect :=
  if now - st.last_detection_time < cfg.detection_cooldown then
    (st, [])
  else
    ({ last_detection_time := now,
       detection_log := st.detection_log ++ [⟨now, contours.length⟩] },
     Effect.ledAlert cfg.alert_duration ::
       (if cfg.save_detections then [Effect.saveDetection now] else []))

/-- A run of the detection gate: `handle_detection` applied in sequence
to a list of (timestamp, contour list) inputs, threading the detector
state, as the main loop of `VehicleDetector.run` does for every frame on
which motion was detected. -/
def runDetections (cfg : Config) : DetectorState → List (ℚ × List Contour) → DetectorState
  | st, [] => st
  | st, (now, cs) :: rest => runDetections cfg (handle_detection cfg st now cs).1 rest

/-- Default configuration values of `VehicleDetector._default_config`
(src/detector.py lines 46-62), typed view. -/
def cfgDefault : Config :=
  { min_contour_area := 5000
    detection_cooldown := 2
    alert_duration := 5
    roi := none
    save_detections := false }

/-- Configuration of the C2 scenario: `detection_cooldown = 2.0`,
everything else at its default. -/
def cfgCooldown2 : Config := cfgDefault

/-- A frame as passed to `detect_motion`: either Python `None` or a
numpy-style image, rows of columns of per-pixel channel lists (BGR). -/
inductive Frame where
  | noneF
  | img (data : List (List (List Nat)))
deriving Repr, DecidableEq

/-- A single-channel image or mask: rows of pixel values (0..255). -/
abbrev Mask := List (List Nat)

/-- The external OpenCV primitives that `detect_motion` calls but whose
internals the repository does not control: Gaussian blur, the MOG2
background subtractor (with its mutable state of type `BG`),
morphological closing and opening, and contour extraction.  The
repository's theorems quantify over these. -/
structure CV (BG : Type) where
  gaussianBlur : Mask → Mask
  bgApply : BG → Mask → BG × Mask
  morphClose : Mask → Mask
  morphOpen : Mask → Mask
  findContours : Mask → List Contour

/-- Numpy slicing `frame[y:y+h, x:x+w]` for non-negative bounds; on
Python `None` the subscript raises `TypeError`. -/
def cropFrame (x y w h : Nat) : Frame → Except String Frame
  | Frame.noneF => Except.error "TypeError: NoneType object is not subscriptable"
  | Frame.img d =>
      Except.ok (Frame.img (((d.drop y).take h).map (fun row => (row.drop x).take w)))

/-- Embedding of src/detector.py lines 89-93:
`roi = self.config.get("roi"); if roi: x, y, w, h = roi; frame = frame[y:y+h, x:x+w]`.
Python truthiness: `None` and the empty list are falsy, so only a
non-empty list enters the branch; a non-empty list that is not of
length 4 fails to unpack (`ValueError`). -/
def apply_roi (roi : Option (List Nat)) (f : Frame) : Except String Frame :=
  match roi with
  | none => Except.ok f
  | some l =>
      if l.isEmpty then Except.ok f
      else
        match l with
        | [x, y, w, h] => cropFrame x y w h f
        | _ => Except.error "ValueError: cannot unpack roi"

/-- BT.601 luma of one BGR pixel, rounded (the exact grey value is never
relevant to a claim); a pixel that does not have exactly three channels
makes `cv2.cvtColor(..., COLOR_BGR2GRAY)` raise. -/
def grayOfPixel (p : List Nat) : Except String Nat :=
  match p with
  | [b, g, r] => Except.ok ((299 * r + 587 * g + 114 * b + 500) / 1000)
  | _ => Except.error "cv2.error: cvtColor: invalid number of channels"

/-- `cv2.cvtColor(frame, cv2.COLOR_BGR2GRAY)`: raises on `None` input,
on an empty image, and on a wrong channel shape; otherwise produces the
single-channel grey image. -/
def cvtColor_BGR2GRAY : Frame → Except String Mask
  | Frame.noneF => Except.error "cv2.error: cvtColor: src is not a numpy array"
  | Frame.img d =>
      if d.isEmpty || d.any (fun row => row.isEmpty) then
        Except.error "cv2.error: cvtColor: empty src"
      else d.mapM (fun row => row.mapM grayOfPixel)

/-- One pixel of `cv2.threshold(m, thresh, maxval, cv2.THRESH_BINARY)`:
`maxval` where the source value strictly exceeds `thresh`, else `0`. -/
def binarizePixel (thresh maxval v : Nat) : Nat :=
  if thresh < v then maxval else 0

/-- `cv2.threshold(m, thresh, maxval, cv2.THRESH_BINARY)` on the whole
mask (src/detector.py line 103 uses `thresh = 250`, `maxval = 255` to
drop MOG2 shadow pixels, which MOG2 marks with the mid-range value
127). -/
def thresholdBinary (thresh maxval : Nat) (m : Mask) : Mask :=
  m.map (fun row => row.map (binarizePixel thresh maxval))

/-- The mask-processing tail of `detect_motion` (src/detector.py lines
102-113): binarize away shadows, morphological close then open, then
extract external contours. -/
def process_mask {BG : Type} (cv : CV BG) (m : Mask) : List Contour :=
  cv.findContours (cv.morphOpen (cv.morphClose (thresholdBinary 250 255 m)))

/-- The final filter of `detect_motion` (src/detector.py lines 116-119):
keep the contours whose area strictly exceeds `min_contour_area`. -/
def filter_significant (contours : List Contour) (minArea : ℚ) : List Contour :=
  contours.filter (fun c => minArea < c.area)

/-- Embedding of `VehicleDetector.detect_motion` (src/detector.py lines
84-121): optional ROI crop, grey conversion, Gaussian blur, background
subtraction, shadow-dropping binarization, morphology, contour
extraction and the minimum-area filter; returns the updated background
state, the detection decision `len(significant_contours) > 0` and the
significant contours.  Exceptions raised by the OpenCV calls propagate
(there is no try/except in the source). -/
def detect_motion {BG : Type} (cv : CV BG) (cfg : Config) (bg : BG)
    (frame : Frame) : Except String (BG × Bool × List Contour) :=
  match apply_roi cfg.roi frame with
  | Except.error e => Except.error e
  | Except.ok f2 =>
      match cvtColor_BGR2GRAY f2 with
      | Except.error e => Except.error e
      | Except.ok gray =>
          let blurred := cv.gaussianBlur gray
          let res := cv.bgApply bg blurred
          let significant :=
            filter_significant (process_mask cv res.2) cfg.min_contour_area
          Except.ok (res.1, decide (0 < significant.length), significant)

/-- One iteration of the main loop `VehicleDetector.run` (src/detector.py
lines 166-180): a failed read (`ret = false`) is skipped; otherwise
`detect_motion` runs (an exception it raises is uncaught and aborts the
loop) and `handle_detection` is called exactly when `detected` is true. -/
def loop_body {BG : Type} (cv : CV BG) (cfg : Config) (st : DetectorState)
    (bg : BG) (ret : Bool) (f : Frame) (now : ℚ) :
    Except String (DetectorState × BG × List Effect) :=
  if ret = false then Except.ok (st, bg, [])
  else
    match detect_motion cv cfg bg f with
    | Except.error e => Except.error e
    | Except.ok (bg', detected, cs) =>
        if detected then
          Except.ok ((handle_detection cfg st now cs).1, bg',
            (handle_detection cfg st now cs).2)
        else Except.ok (st, bg', [])

/-- Outcome of a run of the main loop: final detector state, final
background-model state, all effects emitted in order, and the uncaught
exception that aborted the run, if any. -/
structure RunResult (BG : Type) where
  st : DetectorState
  bg : BG
  effects : List Effect
  error : Option String

/-- The main loop of `VehicleDetector.run` over a finite list of frame
reads `(ret, frame, timestamp)`: iterates `loop_body`, stopping at the
first uncaught exception. -/
def runLoop {BG : Type} (cv : CV BG) (cfg : Config) (st : DetectorState)
    (bg : BG) : List (Bool × Frame × ℚ) → RunResult BG
  | [] => ⟨st, bg, [], none⟩
  | (ret, f, t) :: rest =>
      match loop_body cv cfg st bg ret f t with
      | Except.error e => ⟨st, bg, [], some e⟩
      | Except.ok (st', bg', effs) =>
          let r := runLoop cv cfg st' bg' rest
          ⟨r.st, r.bg, effs ++ r.effects, r.error⟩

/-- Number of strong-foreground (255) pixels of a mask. -/
def countFg (m : Mask) : Nat :=
  (m.map (fun row => (row.filter (fun v => v = 255)).length)).sum

/-- A concrete instance of the OpenCV primitives used by the witnesses:
blur and morphology as identities, a stateless background subtractor
that returns its input, and contour extraction that reports one contour
whose area is the strong-foreground pixel count when any exists. -/
def cvId : CV Unit :=
  { gaussianBlur := fun m => m
    bgApply := fun u m => (u, m)
    morphClose := fun m => m
    morphOpen := fun m => m
    findContours := fun m => if countFg m = 0 then [] else [⟨(countFg m : ℚ)⟩] }

/-- The configuration with the region of interest removed, other
options unchanged. -/
def cfgNoRoi (c : Config) : Config := { c with roi := none }

/-- A mask all of whose pixels are background (0) or MOG2 shadow
(127). -/
def allShadowOrBg (m : Mask) : Prop :=
  ∀ row ∈ m, ∀ v ∈ row, v = 0 ∨ v = 127

instance (m : Mask) : Decidable (allShadowOrBg m) := by
  unfold allShadowOrBg; infer_instance

/-- The all-background mask of the same shape as `m`. -/
def zerosLike (m : Mask) : Mask :=
  m.map (fun row => row.map (fun _ => 0))

/-- A concrete OpenCV instance whose contour extraction never reports a
contour, used to witness the run-level part of C5. -/
def cvNoContours : CV Unit :=
  { gaussianBlur := fun m => m
    bgApply := fun u m => (u, m)
    morphClose := fun m => m
    morphOpen := fun m => m
    findContours := fun _ => [] }

/-- A JSON configuration value as `_load_config` can produce: number,
string, boolean, null or a flat number array (the ROI). -/
inductive ConfigValue where
  | vnum (q : ℚ)
  | vstr (s : String)
  | vbool (b : Bool)
  | vnull
  | varr (l : List ℚ)
deriving Repr, DecidableEq

/-- Outcome of `json.load` on an existing configuration file: either it
raises `json.JSONDecodeError` (malformed file) or it returns the parsed
flat mapping. -/
inductive JsonResult where
  | malformed (msg : String)
  | parsed (cfg : List (String × ConfigValue))
deriving Repr, DecidableEq

/-- The state of the configuration file at `config_path`: missing, or
present with a given `json.load` outcome. -/
inductive ConfigFileState where
  | missing
  | present (r : JsonResult)
deriving Repr, DecidableEq

/-- The full default configuration dictionary returned by
`VehicleDetector._default_config` (src/detector.py lines 46-62). -/
def default_config : List (String × ConfigValue) :=
  [("camera_index", ConfigValue.vnum 0),
   ("frame_width", ConfigValue.vnum 640),
   ("frame_height", ConfigValue.vnum 480),
   ("fps", ConfigValue.vnum 30),
   ("led_pin", ConfigValue.vnum 17),
   ("min_contour_area", ConfigValue.vnum 5000),
   ("detection_cooldown", ConfigValue.vnum 2),
   ("alert_duration", ConfigValue.vnum 5),
   ("bg_history", ConfigValue.vnum 500),
   ("var_threshold", ConfigValue.vnum 50),
   ("roi", ConfigValue.vnull),
   ("save_detections", ConfigValue.vbool false),
   ("detections_dir", ConfigValue.vstr "detections")]

/-- Embedding of `VehicleDetector._load_config` (src/detector.py lines
36-44): if the file exists its `json.load` result is returned as-is (a
`json.JSONDecodeError` propagates — there is no try/except — and no
per-key defaulting happens); only when the file is missing are the full
defaults returned (with a warning). -/
def load_config : ConfigFileState → Except String (List (String × ConfigValue))
  | ConfigFileState.missing => Except.ok default_config
  | ConfigFileState.present (JsonResult.malformed msg) => Except.error msg
  | ConfigFileState.present (JsonResult.parsed cfg) => Except.ok cfg

/-- Python `dict.get`: `none` when the key is absent. -/
def dict_get (cfg : List (String × ConfigValue)) (key : String) :
    Option ConfigValue :=
  (cfg.find? (fun p => p.1 = key)).map (fun p => p.2)

/-- Python `dict[key]`: raises `KeyError` when the key is absent. -/
def dict_getitem (cfg : List (String × ConfigValue)) (key : String) :
    Except String ConfigValue :=
  match dict_get cfg key with
  | some v => Except.ok v
  | none => Except.error ("KeyError: " ++ key)

/-- The configuration accesses performed by `VehicleDetector.__init__`
(src/detector.py lines 24-31): after `_load_config`, the constructor
subscripts `config["led_pin"]`, `config["bg_history"]` and
`config["var_threshold"]`; a missing key raises `KeyError` and aborts
construction.  Returns the loaded dictionary on success. -/
def detector_init (fs : ConfigFileState) :
    Except String (List (String × ConfigValue)) :=
  match load_config fs with
  | Except.error e => Except.error e
  | Except.ok cfg =>
      match dict_getitem cfg "led_pin" with
      | Except.error e => Except.error e
      | Except.ok _ =>
          match dict_getitem cfg "bg_history" with
          | Except.error e => Except.error e
          | Except.ok _ =>
              match dict_getitem cfg "var_threshold" with
              | Except.error e => Except.error e
              | Except.ok _ => Except.ok cfg

/-- The loop guard of the solid branch of `_run_alert`
(src/led_controller.py lines 104-109) evaluated at the k-th poll
instant: with no intervening trigger or cancel the stop event is never
set, so the loop runs `self.on()`, then at each elapsed time
`k * 0.1` checks `time.time() - start_time < duration` and sleeps 0.1 s
while it holds; `pollDone duration k` says the guard fails (the loop
exits and `self.off()` runs) at poll `k`.  The embedding idealizes real
time: `time.sleep(0.1)` advances time by exactly 1/10 s and everything
else is instantaneous (real execution can only delay the poll instants
further). -/
def pollDone (duration : ℚ) (k : Nat) : Prop := duration ≤ (k : ℚ) / 10

instance (duration : ℚ) : DecidablePred (pollDone duration) := by
  unfold pollDone; infer_instance

/-- The loop guard eventually fails. -/
theorem pollDone_exists (duration : ℚ) : ∃ k, pollDone duration k :=
  ⟨Nat.ceil (10 * duration), by
    unfold pollDone
    rw [le_div_iff₀ (by norm_num : (0:ℚ) < 10), mul_comm]
    exact Nat.le_ceil (10 * duration)⟩

/-- Index of the first poll at which the solid alert loop exits. -/
def alert_solid_offIndex (duration : ℚ) : Nat :=
  Nat.find (pollDone_exists duration)

/-- The instant (relative to the alert's start) at which the solid alert
turns the LED off: the first poll instant `k / 10` at or after the
deadline. -/
def alert_solid_offTime (duration : ℚ) : ℚ :=
  (alert_solid_offIndex duration : ℚ) / 10

/-- LED state of `alert(duration, pattern="solid")` with no intervening
trigger or cancel, at elapsed time `t` from the alert's start:
`self.on()` runs at t = 0 and `self.off()` at the loop's exit poll. -/
def ledOn_solid (duration t : ℚ) : Prop :=
  0 ≤ t ∧ t < alert_solid_offTime duration

/-- Separation invariant used for the cooldown theorem: every entry of
the log precedes `last_detection_time`, and consecutive log entries are
at least one cooldown apart. -/
theorem runDetections_pairwise (cfg : Config) (hc : 0 ≤ cfg.detection_cooldown)
    (inputs : List (ℚ × List Contour)) :
    ∀ st : DetectorState,
      st.detection_log.Pairwise
        (fun a b => cfg.detection_cooldown ≤ b.timestamp - a.timestamp) →
      (∀ e ∈ st.detection_log, e.timestamp ≤ st.last_detection_time) →
      (runDetections cfg st inputs).detection_log.Pairwise
        (fun a b => cfg.detection_cooldown ≤ b.timestamp - a.timestamp) := by
  induction inputs with
  | nil => intro st hsep _; simpa [runDetections] using hsep
  | cons p rest ih =>
    intro st hsep hlast
    obtain ⟨now, cs⟩ := p
    by_cases h : now - st.last_detection_time < cfg.detection_cooldown
    · simpa [runDetections, handle_detection, h] using ih st hsep hlast
    · have hge : cfg.detection_cooldown ≤ now - st.last_detection_time := not_lt.mp h
      simp only [runDetections, handle_detection, if_neg h]
      apply ih
      · rw [List.pairwise_append]
        refine ⟨hsep, List.pairwise_singleton _ _, ?_⟩
        intro a ha b hb
        simp only [List.mem_singleton] at hb
        subst hb
        have h1 := hlast a ha
        simp only
        linarith
      · intro e he
        simp only [List.mem_append, List.mem_singleton] at he
        rcases he with he | he
        · have := hlast e he
          simp only
          linarith
        · subst he
          simp

/-- Claim C1: a call to `handle_detection` at time `now` is accepted
(`last_detection_time` updated to `now`, an LED alert triggered, a log
entry appended) if and only if `now - last_detection_time ≥
detection_cooldown`; consequently, in any run starting from the fresh
detector state, any two accepted detection events (log entries) are
separated by at least `detection_cooldown`. -/
theorem claim_C1_cooldown_gate (cfg : Config)
    (hc : 0 ≤ cfg.detection_cooldown) :
    (∀ (st : DetectorState) (now : ℚ) (cs : List Contour),
      ((handle_detection cfg st now cs).1.last_detection_time = now ∧
       Effect.ledAlert cfg.alert_duration ∈ (handle_detection cfg st now cs).2 ∧
       (handle_detection cfg st now cs).1.detection_log
         = st.detection_log ++ [⟨now, cs.length⟩]) ↔
      cfg.detection_cooldown ≤ now - st.last_detection_time) ∧
    (∀ inputs : List (ℚ × List Contour),
      (runDetections cfg freshState inputs).detection_log.Pairwise
        (fun a b => cfg.detection_cooldown ≤ b.timestamp - a.timestamp)) := by
  constructor
  · intro st now cs
    constructor
    · rintro ⟨_, h2, _⟩
      by_contra hnot
      rw [not_le] at hnot
      simp [handle_detection, hnot] at h2
    · intro hge
      have h : ¬ (now - st.last_detection_time < cfg.detection_cooldown) :=
        not_lt.mpr hge
      simp [handle_detection, h]
  · intro inputs
    exact runDetections_pairwise cfg hc inputs freshState (by simp [freshState])
      (by simp [freshState])

/-- Witness for C1 at the default configuration and a concrete run. -/
theorem claim_C1_witness :
    (runDetections cfgDefault freshState
        [(3, [⟨6000⟩]), (4, [⟨7000⟩]), (6, [⟨6000⟩])]).detection_log.Pairwise
      (fun a b => cfgDefault.detection_cooldown ≤ b.timestamp - a.timestamp) :=
  (claim_C1_cooldown_gate cfgDefault (by norm_num [cfgDefault])).2 _

/-- Claim C2 counterexample: from the freshly constructed detector
(whose `last_detection_time` is initialised to `0` in `__init__`, not to
-∞) with cooldown 2.0, positive detections at t = 0.0, t = 1.0 and
t = 2.1 yield an accepted event only at t = 2.1: at t = 0.0 the check
`0.0 - 0 < 2.0` rejects the detection, contradicting the claim that the
t = 0.0 detection is accepted. -/
theorem claim_C2_counterexample :
    (runDetections cfgCooldown2 freshState
        [(0, [⟨6000⟩]), (1, [⟨7000⟩]), (21/10, [⟨6000⟩])]).detection_log.map
      (fun e => e.timestamp) = [21/10] ∧
    (handle_detection cfgCooldown2 freshState 0 [⟨6000⟩]).2 = [] := by
  constructor
  · norm_num [runDetections, handle_detection, cfgCooldown2, cfgDefault, freshState]
  · norm_num [handle_detection, cfgCooldown2, cfgDefault, freshState]

/-- Claim C2 amended: because `__init__` sets `last_detection_time = 0`
(not -∞), the fresh detector only accepts a detection once `now` has
reached the cooldown.  Shifting the scenario by any base time `T ≥ 2.0`
(in particular any real wall-clock `time.time()` value), positive
detections at `T`, `T + 1.0` and `T + 2.1` accept exactly the first and
the third and reject the one at `T + 1.0`. -/
theorem claim_C2_amended (T : ℚ) (hT : 2 ≤ T) :
    (runDetections cfgCooldown2 freshState
        [(T, [⟨6000⟩]), (T + 1, [⟨7000⟩]), (T + 21/10, [⟨6000⟩])]).detection_log.map
      (fun e => e.timestamp) = [T, T + 21/10] := by
  have h0 : ¬ (T < 2) := not_lt.mpr hT
  norm_num [runDetections, handle_detection, cfgCooldown2, cfgDefault, freshState,
    h0, add_sub_cancel_left]

/-- Witness for the amended C2 at the concrete base time T = 2. -/
theorem claim_C2_witness :
    (runDetections cfgCooldown2 freshState
        [(2, [⟨6000⟩]), (2 + 1, [⟨7000⟩]), (2 + 21/10, [⟨6000⟩])]).detection_log.map
      (fun e => e.timestamp) = [2, 2 + 21/10] :=
  claim_C2_amended 2 (by norm_num)

/-- Binarizing an all-background mask leaves it unchanged. -/
theorem threshold_zerosLike (m : Mask) :
    thresholdBinary 250 255 (zerosLike m) = zerosLike m := by
  simp [thresholdBinary, zerosLike, List.map_map, binarizePixel, Function.comp]

/-- Shape of a successful `detect_motion` result: the returned contours
are the min-area filter of the contours extracted from the processed
mask, and the decision is exactly "some contour survived the filter". -/
theorem detect_motion_ok_shape {BG : Type} (cv : CV BG) (cfg : Config)
    (bg : BG) (f : Frame) (bg' : BG) (d : Bool) (regs : List Contour)
    (h : detect_motion cv cfg bg f = Except.ok (bg', d, regs)) :
    ∃ m : Mask,
      regs = filter_significant (process_mask cv (cv.bgApply bg m).2)
        cfg.min_contour_area ∧
      d = decide (0 < regs.length) := by
  unfold detect_motion at h
  cases hroi : apply_roi cfg.roi f with
  | error e => simp only [hroi] at h; exact Except.noConfusion h
  | ok f2 =>
    simp only [hroi] at h
    cases hgray : cvtColor_BGR2GRAY f2 with
    | error e => simp only [hgray] at h; exact Except.noConfusion h
    | ok gray =>
      simp only [hgray, Except.ok.injEq, Prod.mk.injEq] at h
      obtain ⟨_, hd, hregs⟩ := h
      refine ⟨cv.gaussianBlur gray, hregs.symm, ?_⟩
      rw [← hd, ← hregs]

/-- Claim C3 (evaluation at the failing inputs): `detect_motion` does
not absorb malformed frames.  On a `None` frame, an empty frame, or a
frame with a wrong channel shape, the embedded `cv2.cvtColor` call
raises and—since the source has no try/except—the exception propagates
out of `detect_motion`; driven through the main loop, it aborts the run
instead of being reported as `(detected = false, [])`. -/
theorem claim_C3_failing_eval :
    detect_motion cvId cfgDefault () Frame.noneF
      = Except.error "cv2.error: cvtColor: src is not a numpy array" ∧
    detect_motion cvId cfgDefault () (Frame.img [])
      = Except.error "cv2.error: cvtColor: empty src" ∧
    detect_motion cvId cfgDefault () (Frame.img [[[5]]])
      = Except.error "cv2.error: cvtColor: invalid number of channels" ∧
    (runLoop cvId cfgDefault freshState () [(true, Frame.noneF, 0)]).error
      = some "cv2.error: cvtColor: src is not a numpy array" := by
  refine ⟨rfl, rfl, rfl, rfl⟩

/-- Claim C5: for every frame on which `detect_motion` succeeds, the
decision is true if and only if some extracted contour has area strictly
exceeding `min_contour_area`; and along any run in which no extracted
contour ever exceeds `min_contour_area`, no effect is ever emitted and
the detector state (in particular the detection log) never changes. -/
theorem claim_C5_area_filter :
    (∀ (BG : Type) (cv : CV BG) (cfg : Config) (bg : BG) (f : Frame)
        (bg' : BG) (d : Bool) (regs : List Contour),
      detect_motion cv cfg bg f = Except.ok (bg', d, regs) →
      ∃ cs : List Contour,
        regs = filter_significant cs cfg.min_contour_area ∧
        (d = true ↔ ∃ c ∈ cs, cfg.min_contour_area < c.area) ∧
        ((∀ c ∈ cs, c.area ≤ cfg.min_contour_area) → d = false ∧ regs = [])) ∧
    (∀ (BG : Type) (cv : CV BG) (cfg : Config),
      (∀ m : Mask, ∀ c ∈ cv.findContours m, c.area ≤ cfg.min_contour_area) →
      ∀ (st : DetectorState) (bg : BG) (inputs : List (Bool × Frame × ℚ)),
        (runLoop cv cfg st bg inputs).effects = [] ∧
        (runLoop cv cfg st bg inputs).st = st) := by
  have key : ∀ (BG : Type) (cv : CV BG) (cfg : Config) (bg : BG) (f : Frame)
      (bg' : BG) (d : Bool) (regs : List Contour),
      detect_motion cv cfg bg f = Except.ok (bg', d, regs) →
      ∃ cs : List Contour,
        regs = filter_significant cs cfg.min_contour_area ∧
        (d = true ↔ ∃ c ∈ cs, cfg.min_contour_area < c.area) ∧
        ((∀ c ∈ cs, c.area ≤ cfg.min_contour_area) → d = false ∧ regs = []) := by
    intro BG cv cfg bg f bg' d regs h
    obtain ⟨m, hregs, hd⟩ := detect_motion_ok_shape cv cfg bg f bg' d regs h
    refine ⟨process_mask cv (cv.bgApply bg m).2, hregs, ?_, ?_⟩
    · rw [hd, hregs]
      simp [filter_significant, List.length_pos, List.filter_eq_nil_iff]
    · intro hall
      have hnil : regs = [] := by
        rw [hregs]
        simp only [filter_significant, List.filter_eq_nil_iff]
        intro c hc
        simpa using not_lt.mpr (hall c hc)
      exact ⟨by simp [hd, hnil], hnil⟩
  refine ⟨key, ?_⟩
  intro BG cv cfg hcv st bg inputs
  induction inputs generalizing st bg with
  | nil => exact ⟨rfl, rfl⟩
  | cons p rest ih =>
    obtain ⟨ret, f, t⟩ := p
    by_cases hret : ret = false
    · subst hret
      simpa [runLoop, loop_body] using ih st bg
    · rw [Bool.not_eq_false] at hret
      subst hret
      cases hdm : detect_motion cv cfg bg f with
      | error e => simp [runLoop, loop_body, hdm]
      | ok v =>
        obtain ⟨bg', d, cs⟩ := v
        obtain ⟨m, hregs, hd⟩ := detect_motion_ok_shape cv cfg bg f bg' d cs hdm
        have hnil : cs = [] := by
          rw [hregs]
          simp only [filter_significant, List.filter_eq_nil_iff]
          intro c hc
          simpa using not_lt.mpr (hcv _ c hc)
        have hdf : d = false := by rw [hd, hnil]; rfl
        subst hdf
        simpa [runLoop, loop_body, hdm] using ih st bg'

/-- Witness for C5: the frame [[[1,2,3]]] under the concrete instance
`cvId` yields a successful non-detection, and with a contour extractor
that never exceeds the area threshold a concrete run emits nothing. -/
theorem claim_C5_witness :
    (∃ cs : List Contour,
      ([] : List Contour) = filter_significant cs cfgDefault.min_contour_area ∧
      (false = true ↔ ∃ c ∈ cs, cfgDefault.min_contour_area < c.area) ∧
      ((∀ c ∈ cs, c.area ≤ cfgDefault.min_contour_area) →
        false = false ∧ ([] : List Contour) = [])) ∧
    (runLoop cvNoContours cfgDefault freshState ()
        [(true, Frame.img [[[1, 2, 3]]], 0), (false, Frame.noneF, 1)]).effects = [] :=
  ⟨claim_C5_area_filter.1 Unit cvId cfgDefault () (Frame.img [[[1, 2, 3]]])
      () false [] rfl,
    (claim_C5_area_filter.2 Unit cvNoContours cfgDefault
      (fun _ c hc => absurd hc (by simp [cvNoContours])) freshState ()
      [(true, Frame.img [[[1, 2, 3]]], 0), (false, Frame.noneF, 1)]).1⟩

/-- Claim C6: the binarization step (`cv2.threshold` at 250 with
`THRESH_BINARY`, src/detector.py lines 102-103) maps every
shadow-band pixel value (any mid-range value up to 250, in particular
MOG2's shadow value 127) to 0, so a mask whose foreground is shadow-only
binarizes to the all-background mask and the subsequent region
extraction — and hence every region area and the motion decision — is
exactly that of an all-background mask. -/
theorem claim_C6_shadow_drop {BG : Type} (cv : CV BG) (m : Mask)
    (hm : allShadowOrBg m) :
    (∀ v ≤ 250, binarizePixel 250 255 v = 0) ∧
    thresholdBinary 250 255 m = zerosLike m ∧
    process_mask cv m = process_mask cv (zerosLike m) := by
  have hbin : ∀ v ≤ 250, binarizePixel 250 255 v = 0 := by
    intro v hv
    simp [binarizePixel, Nat.not_lt.mpr hv]
  have hth : thresholdBinary 250 255 m = zerosLike m := by
    unfold thresholdBinary zerosLike
    apply List.map_congr_left
    intro row hrow
    apply List.map_congr_left
    intro v hv
    rcases hm row hrow v hv with h | h <;> simp [h, binarizePixel]
  refine ⟨hbin, hth, ?_⟩
  unfold process_mask
  rw [hth, threshold_zerosLike]

/-- Witness for C6 at a concrete shadow-only mask. -/
theorem claim_C6_witness :
    thresholdBinary 250 255 [[0, 127], [127, 127]]
      = zerosLike [[0, 127], [127, 127]] ∧
    process_mask cvId [[0, 127], [127, 127]]
      = process_mask cvId (zerosLike [[0, 127], [127, 127]]) :=
  ⟨(claim_C6_shadow_drop cvId [[0, 127], [127, 127]] (by decide)).2.1,
   (claim_C6_shadow_drop cvId [[0, 127], [127, 127]] (by decide)).2.2⟩

/-- Claim C10: a falsy region-of-interest value — absent key or `None`
(both reach the embedding as `none`, since `config.get("roi")` returns
`None` in either case) or the empty list — leaves the frame uncropped
and `detect_motion` behaves exactly as with no ROI configured; only a
non-empty four-element list `[x, y, w, h]` causes the frame to be
cropped before further processing. -/
theorem claim_C10_roi {BG : Type} (cv : CV BG) (cfg : Config) (bg : BG)
    (f : Frame) :
    (apply_roi none f = Except.ok f) ∧
    (apply_roi (some []) f = Except.ok f) ∧
    (∀ (x y w h : Nat) (d : List (List (List Nat))),
      apply_roi (some [x, y, w, h]) (Frame.img d)
        = cropFrame x y w h (Frame.img d)) ∧
    ((cfg.roi = none ∨ cfg.roi = some []) →
      detect_motion cv cfg bg f = detect_motion cv (cfgNoRoi cfg) bg f) := by
  refine ⟨rfl, rfl, fun x y w h d => rfl, ?_⟩
  intro hroi
  rcases hroi with h | h <;>
    simp [detect_motion, cfgNoRoi, apply_roi, h]

/-- Witness for C10 at an empty-list ROI. -/
theorem claim_C10_witness :
    detect_motion cvId { cfgDefault with roi := some [] } ()
        (Frame.img [[[1, 2, 3]]])
      = detect_motion cvId (cfgNoRoi { cfgDefault with roi := some [] }) ()
        (Frame.img [[[1, 2, 3]]]) :=
  (claim_C10_roi cvId { cfgDefault with roi := some [] } ()
    (Frame.img [[[1, 2, 3]]])).2.2.2 (Or.inr rfl)

/-- Claim C4 counterexample: configuration loading can abort.  On a
present but malformed configuration file, `json.load` raises
`json.JSONDecodeError` and `_load_config` propagates it (no fallback to
defaults), contradicting the claim that loading never aborts. -/
theorem claim_C4_counterexample :
    load_config (ConfigFileState.present
        (JsonResult.malformed "json.JSONDecodeError: Expecting value: line 1 column 1"))
      = Except.error "json.JSONDecodeError: Expecting value: line 1 column 1" ∧
    detector_init (ConfigFileState.present
        (JsonResult.parsed [("detection_cooldown", ConfigValue.vnum 2)]))
      = Except.error "KeyError: led_pin" := ⟨rfl, rfl⟩

/-- Claim C4 amended: only a missing configuration file falls back (to
the complete documented defaults, with a warning); a present
configuration is returned exactly as parsed, so a malformed file makes
loading abort with the parse error, and an option left unspecified in a
present configuration is not defaulted — a later subscript of that key
(as in `__init__`) raises `KeyError` instead. -/
theorem claim_C4_amended :
    (load_config ConfigFileState.missing = Except.ok default_config) ∧
    (∀ msg : String,
      load_config (ConfigFileState.present (JsonResult.malformed msg))
        = Except.error msg) ∧
    (∀ cfg : List (String × ConfigValue),
      load_config (ConfigFileState.present (JsonResult.parsed cfg))
        = Except.ok cfg) ∧
    (dict_getitem [("detection_cooldown", ConfigValue.vnum 2)] "led_pin"
      = Except.error "KeyError: led_pin") :=
  ⟨rfl, fun _ => rfl, fun _ => rfl, rfl⟩

/-- Claim C9: a call to `handle_detection` inside the cooldown window
(`now - last_detection_time < detection_cooldown`) returns with no side
effects at all: the state (both `last_detection_time` and the detection
log) is unchanged and no effect (neither an LED alert nor a snapshot
save) is produced. -/
theorem claim_C9_no_side_effects (cfg : Config) (st : DetectorState)
    (now : ℚ) (cs : List Contour)
    (h : now - st.last_detection_time < cfg.detection_cooldown) :
    handle_detection cfg st now cs = (st, []) := by
  simp [handle_detection, h]

/-- Witness for C9 at a concrete in-cooldown call. -/
theorem claim_C9_witness :
    handle_detection cfgDefault ⟨10, [⟨10, 1⟩]⟩ 11 [⟨6000⟩] = (⟨10, [⟨10, 1⟩]⟩, []) :=
  claim_C9_no_side_effects cfgDefault ⟨10, [⟨10, 1⟩]⟩ 11 [⟨6000⟩]
    (by norm_num [cfgDefault])

/-- Claim C8 counterexample: with `duration = 0.25` the loop is still
between polls when the deadline passes, so the LED is still on at the
deadline `t = 0.25` (it goes off only at the next poll, `t = 0.3`),
contradicting the claim that the indicator is forced off upon reaching
the deadline. -/
theorem claim_C8_counterexample :
    ledOn_solid (1/4) (1/4) ∧ alert_solid_offTime (1/4) = 3/10 := by
  have hidx : alert_solid_offIndex (1/4) = 3 := by
    rw [alert_solid_offIndex, Nat.find_eq_iff]
    refine ⟨by norm_num [pollDone], ?_⟩
    intro k hk
    interval_cases k <;> norm_num [pollDone]
  have hoff : alert_solid_offTime (1/4) = 3/10 := by
    rw [alert_solid_offTime, hidx]; norm_num
  exact ⟨⟨by norm_num, by rw [hoff]; norm_num⟩, hoff⟩

/-- Claim C8 amended: with no intervening trigger or cancel,
`alert(duration = D, pattern = "solid")` keeps the indicator on
throughout [start, start + D) and forces it off at the first 0.1 s poll
instant at or after the deadline — within 0.1 s after the deadline, and
exactly at the deadline whenever D is a multiple of the 0.1 s poll
interval (e.g. the default 5.0 s). -/
theorem claim_C8_amended (D : ℚ) (hD : 0 ≤ D) :
    (∀ t : ℚ, 0 ≤ t → t < D → ledOn_solid D t) ∧
    D ≤ alert_solid_offTime D ∧
    alert_solid_offTime D < D + 1/10 ∧
    (∀ t : ℚ, alert_solid_offTime D ≤ t → ¬ ledOn_solid D t) := by
  have hspec : D ≤ (alert_solid_offIndex D : ℚ) / 10 :=
    Nat.find_spec (pollDone_exists D)
  have hub : alert_solid_offTime D < D + 1/10 := by
    rcases Nat.eq_zero_or_pos (alert_solid_offIndex D) with h0 | hpos
    · rw [alert_solid_offTime, h0]
      push_cast
      linarith
    · have hmin : ¬ pollDone D (alert_solid_offIndex D - 1) :=
        Nat.find_min (pollDone_exists D) (Nat.sub_lt hpos Nat.one_pos)
      rw [pollDone, not_le] at hmin
      rw [alert_solid_offTime]
      have hcast : ((alert_solid_offIndex D - 1 : Nat) : ℚ)
          = (alert_solid_offIndex D : ℚ) - 1 := by
        rw [Nat.cast_sub hpos]
        norm_num
      rw [hcast] at hmin
      rw [div_lt_iff₀ (by norm_num : (0:ℚ) < 10)] at hmin ⊢
      linarith
  refine ⟨?_, hspec, hub, ?_⟩
  · intro t ht htD
    exact ⟨ht, lt_of_lt_of_le htD hspec⟩
  · intro t ht hon
    exact absurd hon.2 (not_lt.mpr ht)

/-- Witness for the amended C8 at the concrete duration D = 1/2. -/
theorem claim_C8_witness :
    ledOn_solid (1/2) (3/10) ∧ (1/2 : ℚ) ≤ alert_solid_offTime (1/2) :=
  ⟨(claim_C8_amended (1/2) (by norm_num)).1 (3/10) (by norm_num) (by norm_num),
   (claim_C8_amended (1/2) (by norm_num)).2.1⟩

end RoadWatcher
